import Mathlib

/-!
Verification of the review-cache subsystem of the gemini-reviewer tool
(src/review-cache.ts) and of its template-loading collaborator
(loadTemplate in the AI-review module).

The TypeScript code is shallowly embedded as follows.

* `process.env.MODEL_ID` is a value of type `Option String` passed in
  explicitly (`none` models an unset environment variable).
* The cache directory is a key-value store `Store : String → Option FileData`
  mapping a file path to the content of the file at that path, or `none`
  when no such file exists.  A file's content is modelled by its JSON parse
  result: `JSON.parse`/`JSON.stringify` round-trip a `CacheEntry` record of
  strings and string lists exactly, so a cache file either parses back to
  the entry that was written (`FileData.entry`) or holds unparsable content
  (`FileData.corrupt`).
* The SHA-256 digest in `generateCacheKey` is an abstract parameter
  `hash : String → String`; the canonical serialization that is fed to it
  (`JSON.stringify` of the config object, with `undefined` fields dropped
  and insertion key order) is modelled concretely as `configString`.
* The cache-format constant `CACHE_VERSION` and the ambient model id are
  passed as explicit parameters to `getCachedReview` / `cacheReview` so
  that statements about changing them between a write and a read can be
  expressed; the source fixes the version parameter to the literal
  `CACHE_VERSION = "1"`.
* A fallible file write is modelled by a boolean `writeOk` environment
  parameter: `writeOk = false` is a write that throws (disk full,
  permission denied); the `catch` block of the source logs a warning and
  returns normally, which the embedding renders by returning the unchanged
  store together with the logged warning.  Every function of the embedding
  returns its console warnings as an explicit list, modelling
  `console.error`.
-/

/-- The fixed cache directory name, `CACHE_DIR = '.gitreview-cache'`. -/
def CACHE_DIR : String := ".gitreview-cache"

/-- The cache-format version constant, `CACHE_VERSION = '1'`. -/
def CACHE_VERSION : String := "1"

/-- The `ProgramOptions` interface of review-cache.ts: all fields optional. -/
structure ProgramOptions where
  commit : Option String := none
  branch : Option String := none
  last : Option Bool := none
  output : Option String := none
  exclude : Option (List String) := none
  focus : Option (List String) := none
  ignore : Option (List String) := none
  template : Option String := none
deriving Repr, DecidableEq

/-- The `CacheEntry` interface of review-cache.ts. -/
structure CacheEntry where
  version : String
  modelId : String
  template : String
  focus : Option (List String) := none
  ignore : Option (List String) := none
  review : String
deriving Repr, DecidableEq

/-- Hexadecimal digit characters, lowercase, as produced by JSON \uXXXX escapes. -/
def hexDigit (n : Nat) : Char :=
  if n < 10 then Char.ofNat (48 + n) else Char.ofNat (87 + n)

/-- The escape JSON.stringify applies to one character inside a string literal. -/
def escapeJsonChar (c : Char) : String :=
  if c = '"' then "\\\""
  else if c = '\\' then "\\\\"
  else if c = '\x08' then "\\b"
  else if c = '\x0c' then "\\f"
  else if c = '\n' then "\\n"
  else if c = '\r' then "\\r"
  else if c = '\t' then "\\t"
  else if c.toNat < 32 then
    "\\u00" ++ String.mk [hexDigit (c.toNat / 16), hexDigit (c.toNat % 16)]
  else String.singleton c

/-- The body of a JSON string literal for `s`. -/
def jsonEscape (s : String) : String :=
  String.join (s.toList.map escapeJsonChar)

/-- `JSON.stringify` of a JS string. -/
def jsonStr (s : String) : String :=
  "\"" ++ jsonEscape s ++ "\""

/-- `JSON.stringify` of a JS array of strings. -/
def jsonStrList (l : List String) : String :=
  "[" ++ String.intercalate "," (l.map jsonStr) ++ "]"

/-- `JSON.stringify` applied to a possibly-`undefined` list of strings, as in
the validation checks of `getCachedReview`: `JSON.stringify(undefined)`
evaluates to the JS value `undefined` (modelled `none`), not to a string. -/
def jsonStringifyOptList : Option (List String) → Option String
  | none => none
  | some l => some (jsonStrList l)

/-- The JS expression `options.template || 'default'` used by both
`getCachedReview` and `cacheReview`: `undefined` and the empty string are
falsy, so both default to the literal `"default"`. -/
def templateOrDefault : Option String → String
  | none => "default"
  | some t => if t = "" then "default" else t

/-- The validation check `cache.modelId !== process.env.MODEL_ID` of
`getCachedReview`: the stored field is a string, and in JS a string is never
strictly equal to `undefined`, so an unset environment variable mismatches
every stored model id. -/
def modelIdMismatch (stored : String) (env : Option String) : Bool :=
  match env with
  | none => true
  | some m => stored != m

/-- The field `diff` of the config object serialized by `generateCacheKey`. -/
def diffField (diff : String) : String :=
  "\"diff\":" ++ jsonStr diff

/-- The `template` segment of the serialized config object: JSON.stringify
drops a field whose value is `undefined`. -/
def templateField : Option String → String
  | none => ""
  | some t => ",\"template\":" ++ jsonStr t

/-- The `focus` segment of the serialized config object. -/
def focusField : Option (List String) → String
  | none => ""
  | some l => ",\"focus\":" ++ jsonStrList l

/-- The `ignore` segment of the serialized config object. -/
def ignoreField : Option (List String) → String
  | none => ""
  | some l => ",\"ignore\":" ++ jsonStrList l

/-- The `modelId` segment of the serialized config object. -/
def modelIdField : Option String → String
  | none => ""
  | some m => ",\"modelId\":" ++ jsonStr m

/-- `JSON.stringify` of the config object built by `generateCacheKey`,
with insertion key order `diff, template, focus, ignore, modelId, version`
and `undefined`-valued fields dropped. -/
def configString (env : Option String) (version diff : String)
    (options : ProgramOptions) : String :=
  "\x7b" ++ diffField diff
      ++ templateField options.template
      ++ focusField options.focus
      ++ ignoreField options.ignore
      ++ modelIdField env
      ++ ",\"version\":" ++ jsonStr version
      ++ "\x7d"

/-- `generateCacheKey` of review-cache.ts: the SHA-256 hex digest of the
canonical config serialization.  The digest function is the abstract
parameter `hash`; everything it is applied to is modelled concretely. -/
def generateCacheKey (hash : String → String) (env : Option String)
    (version diff : String) (options : ProgramOptions) : String :=
  hash (configString env version diff options)

/-- Content of a cache file, modelled by its JSON parse result. -/
inductive FileData where
  | entry (e : CacheEntry)
  | corrupt (raw : String)
deriving Repr, DecidableEq

/-- The on-disk cache directory: a map from file path to file content. -/
def Store := String → Option FileData

/-- `path.join(CACHE_DIR, cacheKey + '.json')`. -/
def cacheFilePath (cacheKey : String) : String :=
  CACHE_DIR ++ "/" ++ cacheKey ++ ".json"

/-- `getCachedReview` of review-cache.ts.  Returns the looked-up review (or
`none` for a miss) together with the list of warnings printed.  A missing
file returns `none` silently; unparsable content is the thrown-and-caught
`JSON.parse` error, logged as a cache read error; a parsed entry is
validated against the version constant, the ambient model id, and the
requesting template/focus/ignore. -/
def getCachedReview (version : String) (env : Option String) (store : Store)
    (cacheKey : String) (options : ProgramOptions) :
    Option String × List String :=
  match store (cacheFilePath cacheKey) with
  | none => (none, [])
  | some (FileData.corrupt _) => (none, ["Cache read error:"])
  | some (FileData.entry cache) =>
    if cache.version != version
        || modelIdMismatch cache.modelId env
        || cache.template != templateOrDefault options.template
        || jsonStringifyOptList cache.focus != jsonStringifyOptList options.focus
        || jsonStringifyOptList cache.ignore != jsonStringifyOptList options.ignore
    then (none, [])
    else (some cache.review, [])

/-- `cacheReview` of review-cache.ts.  Builds a `CacheEntry` (storing
`process.env.MODEL_ID ?? ''` for the model id and `options.template ||
'default'` for the template) and writes it to the key's file; a failed write
(`writeOk = false`) is caught and logged, leaving the store unchanged.
Returns the resulting store together with the warnings printed. -/
def cacheReview (version : String) (env : Option String) (writeOk : Bool)
    (store : Store) (cacheKey : String) (review : String)
    (options : ProgramOptions) : Store × List String :=
  let cacheEntry : CacheEntry :=
    { version := version
      modelId := env.getD ""
      template := templateOrDefault options.template
      focus := options.focus
      ignore := options.ignore
      review := review }
  if writeOk then
    (fun p => if p = cacheFilePath cacheKey then some (FileData.entry cacheEntry)
              else store p, [])
  else
    (store, ["Cache write error:"])

/-- `loadTemplate` of the AI-review module.  Reads the default template
first and throws (`Except.error`) if that read fails; otherwise returns the
named template's text when its read succeeds and falls back to the default
template's text (logging, not throwing) when it fails. -/
def loadTemplate (readFile : String → Option String)
    (templateName : String := "default") : Except String String :=
  match readFile ("prompts" ++ "/" ++ "default.txt") with
  | none => Except.error "FATAL: Failed to load critical default template"
  | some defaultTemplate =>
    if templateName = "default" then Except.ok defaultTemplate
    else
      match readFile ("prompts" ++ "/" ++ (templateName ++ ".txt")) with
      | some t => Except.ok t
      | none => Except.ok defaultTemplate

/-- C4: `cacheReview` returns normally even when the underlying file write
fails: the failure is caught, a warning is logged, the store is unchanged,
and no exception propagates (the embedding is a total function). -/
theorem c4_put_swallows_write_failure (version : String) (env : Option String)
    (store : Store) (k r : String) (o : ProgramOptions) :
    cacheReview version env false store k r o = (store, ["Cache write error:"]) :=
  rfl

/-- C3: `getCachedReview` never throws (it is a total function of its
inputs): on a key with no corresponding file it returns a miss with no
warning, and on a file with unparsable content it logs a cache-read warning
and returns a miss. -/
theorem c3_get_never_throws (version : String) (env : Option String)
    (store : Store) (k : String) (o : ProgramOptions) :
    (store (cacheFilePath k) = none →
      getCachedReview version env store k o = (none, []))
    ∧ (∀ raw, store (cacheFilePath k) = some (FileData.corrupt raw) →
      getCachedReview version env store k o = (none, ["Cache read error:"])) := by
  constructor
  · intro h
    simp [getCachedReview, h]
  · intro raw h
    simp [getCachedReview, h]

theorem c3_witness :
    getCachedReview CACHE_VERSION none (fun _ => none) "k" {} = (none, [])
    ∧ getCachedReview CACHE_VERSION none
        (fun _ => some (FileData.corrupt "oops")) "k" {}
        = (none, ["Cache read error:"]) :=
  ⟨(c3_get_never_throws CACHE_VERSION none (fun _ => none) "k" {}).1 rfl,
   (c3_get_never_throws CACHE_VERSION none
      (fun _ => some (FileData.corrupt "oops")) "k" {}).2 "oops" rfl⟩

/-- C7: `cacheReview` is idempotent: writing the same key with the same
review and options twice (under the same write-success environment) leaves
the store in the same observable state as a single write, so every
subsequent `getCachedReview` returns the same value as after one write. -/
theorem c7_put_idempotent (version : String) (env : Option String)
    (writeOk : Bool) (store : Store) (k r : String) (o : ProgramOptions) :
    (cacheReview version env writeOk
        (cacheReview version env writeOk store k r o).1 k r o).1
      = (cacheReview version env writeOk store k r o).1
    ∧ ∀ (v : String) (env2 : Option String) (k2 : String) (o2 : ProgramOptions),
        getCachedReview v env2
            (cacheReview version env writeOk
              (cacheReview version env writeOk store k r o).1 k r o).1 k2 o2
          = getCachedReview v env2
              (cacheReview version env writeOk store k r o).1 k2 o2 := by
  have hstore :
      (cacheReview version env writeOk
          (cacheReview version env writeOk store k r o).1 k r o).1
        = (cacheReview version env writeOk store k r o).1 := by
    cases writeOk
    · rfl
    · funext p
      by_cases h : p = cacheFilePath k <;> simp [cacheReview, h]
  exact ⟨hstore, fun v env2 k2 o2 => by rw [hstore]⟩

/-- C9: with the model-id environment variable unset at both calls,
`cacheReview` stores the empty string for the model id (MODEL_ID ?? ''),
while `getCachedReview` compares that stored string strictly against the
raw undefined environment value, so the freshly written entry never
validates and the lookup misses. -/
theorem c9_unset_model_env_never_validates (store : Store) (k r : String)
    (o : ProgramOptions) :
    (cacheReview CACHE_VERSION none true store k r o).1 (cacheFilePath k)
      = some (FileData.entry
          { version := CACHE_VERSION, modelId := "",
            template := templateOrDefault o.template,
            focus := o.focus, ignore := o.ignore, review := r })
    ∧ (getCachedReview CACHE_VERSION none
        (cacheReview CACHE_VERSION none true store k r o).1 k o).1 = none := by
  constructor
  · simp [cacheReview]
  · simp [getCachedReview, cacheReview, modelIdMismatch]

/-- C1: the claimed round-trip — put followed by get returns the stored
review whenever model id, version, template, focus and ignore are unchanged,
including with the model-id environment variable unset at both calls — fails
on the code exactly in the unset case: the lookup misses right after the
write (first conjunct), while the identical round-trip with the variable set
succeeds (second conjunct). -/
theorem c1_roundtrip_fails_with_unset_model_env :
    (getCachedReview CACHE_VERSION none
      (cacheReview CACHE_VERSION none true (fun _ => none) "k" "REVIEW" {}).1
      "k" {}).1 = none
    ∧ (getCachedReview CACHE_VERSION (some "model-A")
      (cacheReview CACHE_VERSION (some "model-A") true (fun _ => none) "k"
        "REVIEW" {}).1 "k" {}).1 = some "REVIEW" := by
  constructor <;> decide

/-- C2: after a successful write under options `o`, a lookup under options
that differ in the defaulted template or in the canonical serialization of
focus or ignore misses. -/
theorem c2_invalidation_on_drift (version : String) (env : Option String)
    (store : Store) (k r : String) (o o2 : ProgramOptions)
    (h : templateOrDefault o.template ≠ templateOrDefault o2.template
       ∨ jsonStringifyOptList o.focus ≠ jsonStringifyOptList o2.focus
       ∨ jsonStringifyOptList o.ignore ≠ jsonStringifyOptList o2.ignore) :
    (getCachedReview version env
      (cacheReview version env true store k r o).1 k o2).1 = none := by
  rcases h with h | h | h <;>
    simp [getCachedReview, cacheReview, h]

theorem c2_witness :
    (getCachedReview CACHE_VERSION (some "m")
      (cacheReview CACHE_VERSION (some "m") true (fun _ => none) "k" "r"
        { template := some "security" }).1
      "k" { template := some "performance" }).1 = none :=
  c2_invalidation_on_drift CACHE_VERSION (some "m") (fun _ => none) "k" "r"
    { template := some "security" } { template := some "performance" }
    (Or.inl (by decide))

/-- C5: `generateCacheKey` is deterministic and a pure function of the diff,
the template/focus/ignore options, the ambient model id and the version
constant: two calls with the same ambient state yield the same key, and no
other option field influences it.  The embedding is a pure function, so the
call has no side effects. -/
theorem c5_deriveKey_deterministic_and_pure (hash : String → String)
    (env : Option String) (version diff : String) (o o2 : ProgramOptions)
    (ht : o.template = o2.template) (hf : o.focus = o2.focus)
    (hi : o.ignore = o2.ignore) :
    generateCacheKey hash env version diff o
      = generateCacheKey hash env version diff o2 := by
  simp [generateCacheKey, configString, ht, hf, hi]

theorem c5_witness :
    generateCacheKey id none CACHE_VERSION "d" { commit := some "c" }
      = generateCacheKey id none CACHE_VERSION "d" { last := some true } :=
  c5_deriveKey_deterministic_and_pure id none CACHE_VERSION "d"
    { commit := some "c" } { last := some true } rfl rfl rfl

/-- C6: an entry persisted under format version "1" is reported absent by a
lookup performed under any other value of the format-version constant, with
an identical key computation path. -/
theorem c6_invalidation_on_version_bump (env : Option String) (store : Store)
    (k r : String) (o : ProgramOptions) (v : String) (hv : v ≠ "1") :
    (getCachedReview v env
      (cacheReview CACHE_VERSION env true store k r o).1 k o).1 = none := by
  simp [getCachedReview, cacheReview, CACHE_VERSION, Ne.symm hv]

theorem c6_witness :
    (getCachedReview "2" (some "m")
      (cacheReview CACHE_VERSION (some "m") true (fun _ => none) "k" "r" {}).1
      "k" {}).1 = none :=
  c6_invalidation_on_version_bump (some "m") (fun _ => none) "k" "r" {} "2"
    (by decide)

/-- C8 fails as stated: when the default template itself cannot be loaded,
`loadTemplate` propagates the error instead of falling back, even though the
named template would load successfully. -/
theorem c8_counterexample :
    loadTemplate
      (fun p => if p = "prompts/security.txt" then some "SEC" else none)
      "security"
      = Except.error "FATAL: Failed to load critical default template"
    ∧ loadTemplate
      (fun p => if p = "prompts/security.txt" then some "SEC" else none)
      "security" ≠ Except.ok "SEC" := by
  exact ⟨rfl, fun h => Except.noConfusion h⟩

/-- C8 (amended): provided the default template itself loads successfully,
`loadTemplate` returns the named template's text when that template loads,
and on a failure to load the named template returns the default template's
text instead of propagating an error; a failure to load the default template
itself is propagated as an error. -/
theorem c8_fallback_given_default_loads (readFile : String → Option String)
    (name dflt : String)
    (hd : readFile ("prompts" ++ "/" ++ "default.txt") = some dflt) :
    (name = "default" → loadTemplate readFile name = Except.ok dflt)
    ∧ (∀ t, name ≠ "default" →
        readFile ("prompts" ++ "/" ++ (name ++ ".txt")) = some t →
        loadTemplate readFile name = Except.ok t)
    ∧ (name ≠ "default" →
        readFile ("prompts" ++ "/" ++ (name ++ ".txt")) = none →
        loadTemplate readFile name = Except.ok dflt) := by
  have hd2 : readFile "prompts/default.txt" = some dflt := hd
  refine ⟨fun h => ?_, fun t h ht => ?_, fun h hn => ?_⟩
  · simp [loadTemplate, hd2, h]
  · have ht2 : readFile ("prompts/" ++ (name ++ ".txt")) = some t := ht
    simp [loadTemplate, hd2, ht2, h]
  · have hn2 : readFile ("prompts/" ++ (name ++ ".txt")) = none := hn
    simp [loadTemplate, hd2, hn2, h]

theorem c8_witness :
    loadTemplate
      (fun p => if p = "prompts/default.txt" then some "DFLT"
                else if p = "prompts/security.txt" then some "SEC" else none)
      "security" = Except.ok "SEC" :=
  (c8_fallback_given_default_loads
      (fun p => if p = "prompts/default.txt" then some "DFLT"
                else if p = "prompts/security.txt" then some "SEC" else none)
      "security" "DFLT" (by decide)).2.1 "SEC" (by decide) (by decide)

/-- The canonical config serializations of an option set with no template
field and of one with the literal template "default" always differ: the
absent field is dropped from the serialization, so the two serialized
objects differ in length by the length of the dropped segment. -/
theorem configString_none_ne_some_default (env : Option String)
    (version diff : String) (o1 o2 : ProgramOptions)
    (h1 : o1.template = none) (h2 : o2.template = some "default")
    (hf : o1.focus = o2.focus) (hi : o1.ignore = o2.ignore) :
    configString env version diff o1 ≠ configString env version diff o2 := by
  intro heq
  have hlen := congrArg String.length heq
  simp only [configString, h1, h2, hf, hi, templateField,
    String.length_append] at hlen
  have hempty : ("" : String).length = 0 := rfl
  have hseg : (",\"template\":" : String).length = 12 := rfl
  have hdflt : (jsonStr "default").length = 9 := rfl
  omega

/-- C10: option sets that differ only in the template field being absent
versus the literal "default" are assigned different cache keys by
`generateCacheKey` (for an injective digest), yet entry validation treats
them as identical: with the model id set and unchanged, an entry written
under either option set is returned by a lookup at the same key under the
other. -/
theorem c10_absent_vs_default_template (hash : String → String)
    (hinj : Function.Injective hash) (m version diff : String)
    (store : Store) (k r : String) (o1 o2 : ProgramOptions)
    (h1 : o1.template = none) (h2 : o2.template = some "default")
    (hf : o1.focus = o2.focus) (hi : o1.ignore = o2.ignore) :
    generateCacheKey hash (some m) version diff o1
      ≠ generateCacheKey hash (some m) version diff o2
    ∧ (getCachedReview version (some m)
        (cacheReview version (some m) true store k r o1).1 k o2).1 = some r
    ∧ (getCachedReview version (some m)
        (cacheReview version (some m) true store k r o2).1 k o1).1 = some r := by
  refine ⟨hinj.ne (configString_none_ne_some_default (some m) version diff
    o1 o2 h1 h2 hf hi), ?_, ?_⟩
  · simp [getCachedReview, cacheReview, modelIdMismatch, h1, h2, hf, hi,
      templateOrDefault]
  · simp [getCachedReview, cacheReview, modelIdMismatch, h1, h2, hf, hi,
      templateOrDefault]

theorem c10_witness :
    (generateCacheKey id (some "model-A") CACHE_VERSION "d" {}
      ≠ generateCacheKey id (some "model-A") CACHE_VERSION "d"
          { template := some "default" })
    ∧ (getCachedReview CACHE_VERSION (some "model-A")
        (cacheReview CACHE_VERSION (some "model-A") true (fun _ => none)
          "k" "r" {}).1 "k" { template := some "default" }).1 = some "r"
    ∧ (getCachedReview CACHE_VERSION (some "model-A")
        (cacheReview CACHE_VERSION (some "model-A") true (fun _ => none)
          "k" "r" { template := some "default" }).1 "k" {}).1 = some "r" :=
  c10_absent_vs_default_template id (fun _ _ h => h) "model-A" CACHE_VERSION
    "d" (fun _ => none) "k" "r" {} { template := some "default" }
    rfl rfl rfl rfl
